import Mathlib

/-
Verification of the Lit action-provider adapters.

The embedding translates the TypeScript sources into Lean:

* `src/app/api/agent/action-providers/lit/constants.ts` — networks and CIDs.
* `src/lit/policies.ts` — the policy schemas and ABI encoders.  The ethers
  helpers they call (`parseUnits`, `getBigInt`, the `uint8`/`uint256`/`address`
  coders of `AbiCoder`) are embedded by their value-level semantics: machine
  integers are `Nat`/`Int` with explicit range checks, a thrown ethers error
  becomes `Except.error` with the ethers message.  The keccak-based address
  checksum cannot be computed here, so every encoder is parametric in a
  `checksum : String → Bool` oracle; ethers only consults it for
  mixed-case addresses.
* `src/app/api/agent/action-providers/lit-action-provider.ts` (and its
  JavaScript twin `src/unnamed/part_001`) — the provider returned by
  `litActionProvider`, with its six handlers.  External effects (node client
  connect, session signatures, `executeJs`, `encryptString`,
  `decryptToString`, `fs.readFile`, `fs.writeFile`, `JSON.parse`) are an
  `ExternalEnv` record of outcomes; each call a handler attempts is recorded
  as a `LitEvent`.  A thrown exception is `Except.error` carrying the
  JavaScript error message; handlers are total functions into the result
  envelope, and the module-level `litNodeClient` variable is threaded as an
  `Option LitClient` state.
* The zod schemas of `src/lit` (`schemas.ts`, embedded in the test bundle) —
  regex checks become boolean character-list predicates; `z.string().url()`
  defers to the runtime URL parser, so it stays a parameter `urlOk`.
-/

/-! ## Character and digit-string utilities (the schema regexes) -/

def isHexCharDigit (c : Char) : Bool :=
  c.isDigit || (('a' ≤ c && c ≤ 'f') || ('A' ≤ c && c ≤ 'F'))

/-- The address regex of the zod schemas and of `policies.ts`:
`^0x[a-fA-F0-9]\x7b40\x7d$`. -/
def addressRegexOk (s : String) : Bool :=
  match s.toList with
  | '0' :: 'x' :: rest => rest.length == 40 && rest.all isHexCharDigit
  | _ => false

/-- The chain-id regex `^\d+$`. -/
def digitsNonempty (s : String) : Bool :=
  !s.toList.isEmpty && s.toList.all Char.isDigit

/-- Split a character list at the first dot: the part before it and,
when a dot occurs, the part after it. -/
def dotSplit : List Char → List Char × Option (List Char)
  | [] => ([], none)
  | c :: cs =>
    if c = '.' then ([], some cs)
    else
      let r := dotSplit cs
      (c :: r.1, r.2)

/-- The amount regex of the schemas: `^\d*\.?\d+$`.  A second dot or any
non-digit lands in one of the two digit runs and falsifies the check. -/
def decimalRegexOk (s : String) : Bool :=
  match dotSplit s.toList with
  | (w, none) => !w.isEmpty && w.all Char.isDigit
  | (w, some f) => w.all Char.isDigit && (!f.isEmpty && f.all Char.isDigit)

/-- Value of a decimal digit list, most significant first. -/
def natOfDigitList (l : List Char) : Nat :=
  l.foldl (fun n c => n * 10 + (c.toNat - 48)) 0

/-- Value of a hexadecimal digit list, most significant first. -/
def natOfHexDigitList (l : List Char) : Nat :=
  l.foldl
    (fun n c =>
      n * 16 +
        (if c.isDigit then c.toNat - 48
         else if 'a' ≤ c && c ≤ 'f' then c.toNat - 87
         else c.toNat - 55)) 0

/-- JavaScript `Number(s)` restricted to the shapes that reach it here:
`Number("")` is `0`, a digit string is its value, anything else feeding
ethers `getNumber` raises (`none`). -/
def jsNumberOfDigits (s : String) : Option Nat :=
  if s.toList.isEmpty then some 0
  else if s.toList.all Char.isDigit then some (natOfDigitList s.toList)
  else none

/-! ## Networks and IPFS CIDs (`constants.ts`) -/

inductive LitNetwork
  | datilDev
  | datilTest
  | datil
deriving DecidableEq, Repr

structure IpfsCidSet where
  erc20Transfer : String
  ecdsaSign : String
  uniswapSwap : String
deriving DecidableEq, Repr

def IPFS_CIDS : LitNetwork → IpfsCidSet
  | .datilDev =>
    { erc20Transfer := "QmUPnnuz8E3wKYG7bCxqnjjhV9anE9uMxHXY4fTv7Z5Y6A"
      ecdsaSign := "QmZJovPgBBBmuLKRtdVwdV47opNSmLiV2AZCNTtWzeog1Q"
      uniswapSwap := "QmQPUjXmFiAe363TYAiv3DPciyTDSFLym2S9FR1d78ZRWs" }
  | .datilTest =>
    { erc20Transfer := "QmRcwjz5EpUaABPMwhgYwsDsy1noYNYkhr6nC8JqWUPEoy"
      ecdsaSign := "QmZbVUwomfUfCa38ia69LrSfH1k8JNK3BHeSUKm5tGMWgv"
      uniswapSwap := "QmaLAZCJEk5B4BW962pjENxCDHvwGtPptCamhckk9GJxJe" }
  | .datil =>
    { erc20Transfer := "QmQ1k3ZzmoPDukAphQ353WJ73XaNFnhmztr1v2hfTprW3V"
      ecdsaSign := "QmPjxnXWSPYGYR2gZyiZHpRE7dMAeb7K181R4Cfvkw5KM8"
      uniswapSwap := "QmStLtPzAvyUAQXbkUorZUJ7mgst6tU4xhJoFYHMZp9etH" }

/-! ## Provider configuration (`LitActionProviderConfig`) -/

structure LitActionProviderConfig where
  litNetwork : Option LitNetwork := none
  debug : Option Bool := none
deriving DecidableEq, Repr

/-- The `finalConfig` object spread built at the top of `litActionProvider`:
defaults `litNetwork: "datil-dev"`, `debug: false` overridden by the keys
present in `config`. -/
def litActionProviderFinalConfig (config : LitActionProviderConfig) :
    LitActionProviderConfig :=
  { litNetwork := some (config.litNetwork.getD .datilDev)
    debug := some (config.debug.getD false) }

/-! ## Ethers value coders (`policies.ts` dependencies) -/

/-- Strip one optional leading minus sign. -/
def signSplit : List Char → Bool × List Char
  | '-' :: rest => (true, rest)
  | l => (false, l)

/-- Ethers `getBigInt` on a string, as the `uint` coder of `AbiCoder`
applies it: the empty string and non-numeric strings raise
`invalid BigNumberish string`; decimal and `0x` hexadecimal integer strings
(optionally negated) convert. -/
def getBigIntOfString (s : String) : Except String Int :=
  match signSplit s.toList with
  | (neg, t) =>
    if !t.isEmpty && t.all Char.isDigit then
      .ok (if neg then -(natOfDigitList t : Int) else (natOfDigitList t : Int))
    else
      match t with
      | '0' :: 'x' :: h =>
        if !h.isEmpty && h.all isHexCharDigit then
          .ok (if neg then -(natOfHexDigitList h : Int) else (natOfHexDigitList h : Int))
        else .error "invalid BigNumberish string"
      | _ => .error "invalid BigNumberish string"

/-- The range check the `uintN` coder of `AbiCoder` performs before
writing a word. -/
def uintCoderCheck (bits : Nat) (v : Int) : Except String Int :=
  if v < 0 ∨ ((2 ^ bits : Nat) : Int) ≤ v then .error "value out-of-bounds"
  else .ok v

def hasUpperHexLetter (l : List Char) : Bool :=
  l.any fun c => 'A' ≤ c && c ≤ 'F'

def hasLowerHexLetter (l : List Char) : Bool :=
  l.any fun c => 'a' ≤ c && c ≤ 'f'

/-- Ethers `getAddress`, as the `address` coder applies it: the 40-hex-digit
form is required, and an address mixing upper- and lower-case hex letters
must additionally match its keccak checksum (the `checksum` oracle). -/
def getAddressOk (checksum : String → Bool) (s : String) : Bool :=
  addressRegexOk s &&
    (!(hasUpperHexLetter (s.toList.drop 2) && hasLowerHexLetter (s.toList.drop 2))
      || checksum s)

/-- The `address[]` coder: each element through `getAddress`, a failure
raising `bad address checksum`. -/
def encodeAddresses (checksum : String → Bool) : List String → Except String (List String)
  | [] => .ok []
  | a :: rest =>
    if getAddressOk checksum a then
      match encodeAddresses checksum rest with
      | .ok r => .ok (a :: r)
      | .error e => .error e
    else .error "bad address checksum"

/-- The match of ethers `FixedNumber.fromString` against
`^(-?)([0-9]*)\.?([0-9]*)$`: sign, whole digits, fraction digits. -/
def fixedNumberPartsAux (neg : Bool) (t : List Char) : Option (Bool × List Char × List Char) :=
  if (dotSplit t).1.all Char.isDigit && ((dotSplit t).2.getD []).all Char.isDigit then
    some (neg, (dotSplit t).1, (dotSplit t).2.getD [])
  else none

def fixedNumberParts (s : String) : Option (Bool × List Char × List Char) :=
  fixedNumberPartsAux (signSplit s.toList).1 (signSplit s.toList).2

/-- The signed value `BigInt(sign + whole + padded fraction)` that
`FixedNumber.fromString` assembles. -/
def parseUnitsValue (neg : Bool) (w f : List Char) (decimals : Nat) : Int :=
  if neg then -(natOfDigitList (w ++ (f ++ List.replicate (decimals - f.length) '0')) : Int)
  else (natOfDigitList (w ++ (f ++ List.replicate (decimals - f.length) '0')) : Int)

/-- Ethers `parseUnits(value, decimals)`: `FixedNumber.fromString` with a
512-bit signed width.  Decimals above 80 are rejected by the format, the
string must match the fixed-number pattern with at least one digit, the
fraction may not be longer than `decimals`, and the scaled value must fit
the signed width. -/
def parseUnits (value : String) (decimals : Nat) : Except String Int :=
  if 80 < decimals then .error "invalid decimals" else
  match fixedNumberParts value with
  | none => .error "invalid FixedNumber string value"
  | some (neg, w, f) =>
    if w.length + f.length == 0 then .error "invalid FixedNumber string value"
    else if decimals < f.length then .error "too many decimals for format"
    else if parseUnitsValue neg w f decimals < -(((2 ^ 511 : Nat) : Int))
        ∨ ((2 ^ 511 : Nat) : Int) ≤ parseUnitsValue neg w f decimals then .error "overflow"
    else .ok (parseUnitsValue neg w f decimals)

/-! ## The three policies (`policies.ts`) -/

structure ERC20TransferPolicyType where
  type : String
  version : String
  erc20Decimals : String
  maxAmount : String
  allowedTokens : List String
  allowedRecipients : List String
deriving DecidableEq, Repr

/-- `erc20TransferPolicySchema.parse`: the literal `type`, string fields,
and the address regex over both lists. -/
def erc20TransferPolicySchemaOk (p : ERC20TransferPolicyType) : Bool :=
  p.type == "ERC20Transfer" && p.allowedTokens.all addressRegexOk
    && p.allowedRecipients.all addressRegexOk

/-- The field values written by
`abiCoder.encode(["tuple(uint8 erc20Decimals, uint256 maxAmount, address[] allowedTokens, address[] allowedRecipients)"], ...)`. -/
structure EncodedERC20 where
  erc20Decimals : Int
  maxAmount : Int
  allowedTokens : List String
  allowedRecipients : List String
deriving DecidableEq, Repr

namespace ERC20TransferPolicy

def version : String := "1.0.0"

/-- `ERC20TransferPolicy.encode`: zod parse, then
`ethers.parseUnits(policy.maxAmount, Number(policy.erc20Decimals))`, then the
tuple coders. -/
def encode (checksum : String → Bool) (policy : ERC20TransferPolicyType) :
    Except String EncodedERC20 :=
  if !erc20TransferPolicySchemaOk policy then .error "schema validation failed"
  else
    match jsNumberOfDigits policy.erc20Decimals with
    | none => .error "invalid unit"
    | some d =>
      match parseUnits policy.maxAmount d with
      | .error e => .error e
      | .ok m =>
        match uintCoderCheck 8 (d : Int) with
        | .error e => .error e
        | .ok dEnc =>
          match uintCoderCheck 256 m with
          | .error e => .error e
          | .ok mEnc =>
            match encodeAddresses checksum policy.allowedTokens with
            | .error e => .error e
            | .ok toks =>
              match encodeAddresses checksum policy.allowedRecipients with
              | .error e => .error e
              | .ok recips =>
                .ok { erc20Decimals := dEnc, maxAmount := mEnc,
                      allowedTokens := toks, allowedRecipients := recips }

end ERC20TransferPolicy

structure SignEcdsaPolicyType where
  type : String
  version : String
  allowedPrefixes : List String
deriving DecidableEq, Repr

def signEcdsaPolicySchemaOk (p : SignEcdsaPolicyType) : Bool :=
  p.type == "SignEcdsa"

namespace SignEcdsaPolicy

def version : String := "1.0.0"

/-- `SignEcdsaPolicy.encode`: zod parse, then
`abiCoder.encode(["tuple(string[] allowedPrefixes)"], ...)`; the string
coder never fails. -/
def encode (policy : SignEcdsaPolicyType) : Except String (List String) :=
  if !signEcdsaPolicySchemaOk policy then .error "schema validation failed"
  else .ok policy.allowedPrefixes

end SignEcdsaPolicy

structure UniswapSwapPolicyType where
  type : String
  version : String
  maxAmount : String
  allowedTokens : List String
deriving DecidableEq, Repr

def uniswapSwapPolicySchemaOk (p : UniswapSwapPolicyType) : Bool :=
  p.type == "UniswapSwap" && p.allowedTokens.all addressRegexOk

/-- The field values written by
`abiCoder.encode(["tuple(uint256 maxAmount, address[] allowedTokens)"], ...)`. -/
structure EncodedUniswap where
  maxAmount : Int
  allowedTokens : List String
deriving DecidableEq, Repr

namespace UniswapSwapPolicy

def version : String := "1.0.0"

/-- `UniswapSwapPolicy.encode`: zod parse, then the tuple coders.  The raw
`policy.maxAmount` string is handed to the `uint256` coder, which applies
`getBigInt` to it. -/
def encode (checksum : String → Bool) (policy : UniswapSwapPolicyType) :
    Except String EncodedUniswap :=
  if !uniswapSwapPolicySchemaOk policy then .error "schema validation failed"
  else
    match getBigIntOfString policy.maxAmount with
    | .error e => .error e
    | .ok m0 =>
      match uintCoderCheck 256 m0 with
      | .error e => .error e
      | .ok m =>
        match encodeAddresses checksum policy.allowedTokens with
        | .error e => .error e
        | .ok toks => .ok { maxAmount := m, allowedTokens := toks }

end UniswapSwapPolicy

/-! ## Handler inputs (the parsed zod schema values) -/

structure HelloLitInput where
  magicNumber : Option Int := none
deriving DecidableEq, Repr

structure EncryptEnvInput where
  envFilePath : Option String := none
  outputPath : Option String := none
  walletAddress : Option String := none
deriving DecidableEq, Repr

structure DecryptEnvInput where
  encryptedFilePath : Option String := none
  outputPath : Option String := none
deriving DecidableEq, Repr

structure LitErc20TransferInput where
  pkpEthAddress : String
  tokenAddress : String
  recipientAddress : String
  amount : String
  chainId : String
  rpcUrl : String
deriving DecidableEq, Repr

structure LitEcdsaSignInput where
  pkpEthAddress : String
  message : String
deriving DecidableEq, Repr

structure LitUniswapSwapInput where
  pkpEthAddress : String
  tokenIn : String
  tokenOut : String
  amountIn : String
  chainId : String
  rpcUrl : String
deriving DecidableEq, Repr

/-! ## JavaScript default-filling (the `x || d` idiom) -/

/-- `v || d` on an optional string: absent and the falsy empty string fall
back to the default. -/
def jsOrString (v : Option String) (d : String) : String :=
  match v with
  | none => d
  | some s => if s == "" then d else s

/-- `v || d` on an optional number: absent and the falsy `0` fall back to
the default. -/
def jsOrInt (v : Option Int) (d : Int) : Int :=
  match v with
  | none => d
  | some m => if m == 0 then d else m

/-- The `magicNumber` jsParam the lit-hello handler sends:
`input.magicNumber || 42`. -/
def helloJsParams (input : HelloLitInput) : Int :=
  jsOrInt input.magicNumber 42

/-- The path the lit-encrypt-env handler reads:
`input.envFilePath || ".env"`. -/
def encryptEnvReadPath (input : EncryptEnvInput) : String :=
  jsOrString input.envFilePath ".env"

/-- The path the lit-encrypt-env handler writes:
`input.outputPath || ".env.encrypted"`. -/
def encryptEnvWritePath (input : EncryptEnvInput) : String :=
  jsOrString input.outputPath ".env.encrypted"

/-- The path the lit-decrypt-env handler reads:
`input.encryptedFilePath || ".env.encrypted"`. -/
def decryptEnvReadPath (input : DecryptEnvInput) : String :=
  jsOrString input.encryptedFilePath ".env.encrypted"

/-- The path the lit-decrypt-env handler writes:
`input.outputPath || ".env"`. -/
def decryptEnvWritePath (input : DecryptEnvInput) : String :=
  jsOrString input.outputPath ".env"

/-! ## The policy objects the handlers build -/

/-- The policy literal of the lit-erc20-transfer handler. -/
def buildErc20TransferPolicy (input : LitErc20TransferInput) : ERC20TransferPolicyType :=
  { type := "ERC20Transfer"
    version := ERC20TransferPolicy.version
    erc20Decimals := "18"
    maxAmount := input.amount
    allowedTokens := [input.tokenAddress]
    allowedRecipients := [input.recipientAddress] }

/-- The policy literal of the lit-ecdsa-sign handler. -/
def buildSignEcdsaPolicy (input : LitEcdsaSignInput) : SignEcdsaPolicyType :=
  { type := "SignEcdsa"
    version := SignEcdsaPolicy.version
    allowedPrefixes := [input.message] }

/-- The policy literal of the lit-uniswap-swap handler. -/
def buildUniswapSwapPolicy (input : LitUniswapSwapInput) : UniswapSwapPolicyType :=
  { type := "UniswapSwap"
    version := UniswapSwapPolicy.version
    maxAmount := input.amountIn
    allowedTokens := [input.tokenIn, input.tokenOut] }

/-! ## The client state, external effects, and recorded events -/

structure LitClient where
  litNetwork : LitNetwork
  debug : Bool
deriving DecidableEq, Repr

/-- The `jsParams` record each `executeJs` call ships. -/
inductive ExecParams
  | hello (magicNumber : Int)
  | erc20 (ipfsId : String) (pkpEthAddress tokenIn recipientAddress amountIn chainId rpcUrl : String)
      (encodedPolicy : EncodedERC20)
  | ecdsa (ipfsId : String) (pkpEthAddress message : String) (encodedPolicy : List String)
  | uniswap (ipfsId : String) (pkpEthAddress tokenIn tokenOut amountIn chainId rpcUrl : String)
      (encodedPolicy : EncodedUniswap)
deriving DecidableEq, Repr

/-- Every external call a handler attempts, in order. -/
inductive LitEvent
  | constructClient (litNetwork : LitNetwork) (debug : Bool)
  | connectClient
  | getSessionSigs
  | executeJs (params : ExecParams)
  | encryptCall
  | decryptCall
  | fsRead (path : String)
  | fsWrite (path : String)
deriving DecidableEq, Repr

/-- The shape `lit-decrypt-env` pulls out of the parsed JSON file. -/
structure EncryptedData where
  ciphertext : String
  dataToEncryptHash : String
deriving DecidableEq, Repr

/-- Outcomes of the third-party calls and of the file system during one
handler invocation. -/
structure ExternalEnv where
  connectResult : Except String Unit
  sessionSigsResult : Except String Unit
  executeJsResult : Except String String
  encryptResult : Except String (String × String)
  decryptResult : Except String String
  readFileResult : String → Except String String
  writeResult : String → Except String Unit
  jsonParse : String → Except String EncryptedData
  walletAddress : String
  checksum : String → Bool

/-- The result envelope the handlers return. -/
structure Envelope where
  success : Bool
  result : Option String := none
  error : Option String := none
deriving DecidableEq, Repr

/-! ## `getLitClient` and `getSessionSigs` -/

/-- The client object `new LitJsSdk.LitNodeClient` builds from the config:
`litNetwork: config.litNetwork || "datil-dev"`, `debug: config.debug || false`. -/
def mkLitClient (config : LitActionProviderConfig) : LitClient :=
  { litNetwork := config.litNetwork.getD .datilDev
    debug := config.debug.getD false }

/-- `getLitClient`: when the module-level `litNodeClient` is unset, construct
it from the config and connect (the variable is assigned before the
`connect` await, so it stays set even when connecting throws); otherwise
return the stored handle untouched. -/
def getLitClient (config : LitActionProviderConfig) (st : Option LitClient)
    (env : ExternalEnv) :
    Except String LitClient × Option LitClient × List LitEvent :=
  match st with
  | some c => (.ok c, some c, [])
  | none =>
    let c := mkLitClient config
    match env.connectResult with
    | .ok _ => (.ok c, some c, [.constructClient c.litNetwork c.debug, .connectClient])
    | .error e => (.error e, some c, [.constructClient c.litNetwork c.debug, .connectClient])

/-- `getSessionSigs`: fetch the client through `getLitClient`, then ask it
for session signatures (SIWE message assembly and wallet signing happen
inside that SDK call). -/
def getSessionSigs (config : LitActionProviderConfig) (st : Option LitClient)
    (env : ExternalEnv) :
    Except String Unit × Option LitClient × List LitEvent :=
  match getLitClient config st env with
  | (.error e, st1, ev1) => (.error e, st1, ev1)
  | (.ok _, st1, ev1) =>
    match env.sessionSigsResult with
    | .error e => (.error e, st1, ev1 ++ [.getSessionSigs])
    | .ok _ => (.ok (), st1, ev1 ++ [.getSessionSigs])

/-! ## Error formatting of the catch blocks -/

def helloErrorMessage (e : String) : String :=
  "Lit Protocol hello failed: " ++ e

def encryptErrorMessage (e : String) : String :=
  "Encryption failed: " ++ e

def decryptErrorMessage (e : String) : String :=
  "Decryption failed: " ++ e ++ ". Make sure you have permission to decrypt this file."

def erc20ErrorMessage (e : String) : String :=
  "ERC20 transfer failed: " ++ e

def ecdsaErrorMessage (e : String) : String :=
  "ECDSA sign failed: " ++ e

def uniswapErrorMessage (e : String) : String :=
  "Uniswap swap failed: " ++ e

/-- A `try` body either returns an envelope or throws; the `catch` block
turns a thrown message into the failure envelope. -/
def tryCatchEnvelope (fmt : String → String) :
    Except String Envelope × Option LitClient × List LitEvent →
    Envelope × Option LitClient × List LitEvent
  | (.ok v, st, ev) => (v, st, ev)
  | (.error e, st, ev) =>
    ({ success := false, result := none, error := some (fmt e) }, st, ev)

/-! ## The six try-block bodies, uncaught -/

/-- The body of the lit-hello handler: client, session sigs, `executeJs`
with `magicNumber: input.magicNumber || 42`, then the success envelope. -/
def helloRun (cfg : LitActionProviderConfig) (input : HelloLitInput)
    (st : Option LitClient) (env : ExternalEnv) :
    Except String Envelope × Option LitClient × List LitEvent :=
  match getLitClient cfg st env with
  | (.error e, st1, ev1) => (.error e, st1, ev1)
  | (.ok _, st1, ev1) =>
    match getSessionSigs cfg st1 env with
    | (.error e, st2, ev2) => (.error e, st2, ev1 ++ ev2)
    | (.ok _, st2, ev2) =>
      let ev3 := ev1 ++ ev2 ++ [.executeJs (.hello (helloJsParams input))]
      match env.executeJsResult with
      | .error e => (.error e, st2, ev3)
      | .ok r => (.ok { success := true, result := some r }, st2, ev3)

/-- The body of the lit-encrypt-env handler: read the env file, return the
empty-file failure envelope before any Lit call when it is empty, else
client, `encryptString`, and the output write. -/
def encryptEnvRun (cfg : LitActionProviderConfig) (input : EncryptEnvInput)
    (st : Option LitClient) (env : ExternalEnv) :
    Except String Envelope × Option LitClient × List LitEvent :=
  let path := encryptEnvReadPath input
  match env.readFileResult path with
  | .error e => (.error e, st, [.fsRead path])
  | .ok content =>
    if content == "" then
      (.ok { success := false,
             error := some ("File " ++ path ++ " is empty or missing") },
       st, [.fsRead path])
    else
      match getLitClient cfg st env with
      | (.error e, st1, ev1) => (.error e, st1, .fsRead path :: ev1)
      | (.ok _, st1, ev1) =>
        let authorizedWallet := jsOrString input.walletAddress env.walletAddress
        match env.encryptResult with
        | .error e => (.error e, st1, .fsRead path :: (ev1 ++ [.encryptCall]))
        | .ok _ =>
          let out := encryptEnvWritePath input
          match env.writeResult out with
          | .error e =>
            (.error e, st1, .fsRead path :: (ev1 ++ [.encryptCall, .fsWrite out]))
          | .ok _ =>
            (.ok { success := true,
                   result := some ("Encrypted " ++ path ++ " to " ++ out
                     ++ ". Access control set for " ++ authorizedWallet) },
             st1, .fsRead path :: (ev1 ++ [.encryptCall, .fsWrite out]))

/-- The body of the lit-decrypt-env handler: read and `JSON.parse` the
encrypted file, client, session sigs, `decryptToString`, output write. -/
def decryptEnvRun (cfg : LitActionProviderConfig) (input : DecryptEnvInput)
    (st : Option LitClient) (env : ExternalEnv) :
    Except String Envelope × Option LitClient × List LitEvent :=
  let path := decryptEnvReadPath input
  match env.readFileResult path with
  | .error e => (.error e, st, [.fsRead path])
  | .ok content =>
    match env.jsonParse content with
    | .error e => (.error e, st, [.fsRead path])
    | .ok _ =>
      match getLitClient cfg st env with
      | (.error e, st1, ev1) => (.error e, st1, .fsRead path :: ev1)
      | (.ok _, st1, ev1) =>
        match getSessionSigs cfg st1 env with
        | (.error e, st2, ev2) => (.error e, st2, .fsRead path :: (ev1 ++ ev2))
        | (.ok _, st2, ev2) =>
          match env.decryptResult with
          | .error e => (.error e, st2, .fsRead path :: (ev1 ++ ev2 ++ [.decryptCall]))
          | .ok _ =>
            let out := decryptEnvWritePath input
            match env.writeResult out with
            | .error e =>
              (.error e, st2,
               .fsRead path :: (ev1 ++ ev2 ++ [.decryptCall, .fsWrite out]))
            | .ok _ =>
              (.ok { success := true,
                     result := some ("Decrypted " ++ path ++ " to " ++ out) },
               st2, .fsRead path :: (ev1 ++ ev2 ++ [.decryptCall, .fsWrite out]))

/-- The body of the lit-erc20-transfer handler: client, session sigs, the
network CID, the policy literal, `ERC20TransferPolicy.encode`, `executeJs`. -/
def erc20TransferRun (cfg : LitActionProviderConfig) (input : LitErc20TransferInput)
    (st : Option LitClient) (env : ExternalEnv) :
    Except String Envelope × Option LitClient × List LitEvent :=
  match getLitClient cfg st env with
  | (.error e, st1, ev1) => (.error e, st1, ev1)
  | (.ok _, st1, ev1) =>
    match getSessionSigs cfg st1 env with
    | (.error e, st2, ev2) => (.error e, st2, ev1 ++ ev2)
    | (.ok _, st2, ev2) =>
      let network := cfg.litNetwork.getD .datilDev
      let ipfsCid := (IPFS_CIDS network).erc20Transfer
      let policy := buildErc20TransferPolicy input
      match ERC20TransferPolicy.encode env.checksum policy with
      | .error e => (.error e, st2, ev1 ++ ev2)
      | .ok encodedPolicy =>
        let ev3 := ev1 ++ ev2 ++
          [.executeJs (.erc20 ipfsCid input.pkpEthAddress input.tokenAddress
            input.recipientAddress input.amount input.chainId input.rpcUrl encodedPolicy)]
        match env.executeJsResult with
        | .error e => (.error e, st2, ev3)
        | .ok r => (.ok { success := true, result := some r }, st2, ev3)

/-- The body of the lit-ecdsa-sign handler. -/
def ecdsaSignRun (cfg : LitActionProviderConfig) (input : LitEcdsaSignInput)
    (st : Option LitClient) (env : ExternalEnv) :
    Except String Envelope × Option LitClient × List LitEvent :=
  match getLitClient cfg st env with
  | (.error e, st1, ev1) => (.error e, st1, ev1)
  | (.ok _, st1, ev1) =>
    match getSessionSigs cfg st1 env with
    | (.error e, st2, ev2) => (.error e, st2, ev1 ++ ev2)
    | (.ok _, st2, ev2) =>
      let network := cfg.litNetwork.getD .datilDev
      let ipfsCid := (IPFS_CIDS network).ecdsaSign
      let policy := buildSignEcdsaPolicy input
      match SignEcdsaPolicy.encode policy with
      | .error e => (.error e, st2, ev1 ++ ev2)
      | .ok encodedPolicy =>
        let ev3 := ev1 ++ ev2 ++
          [.executeJs (.ecdsa ipfsCid input.pkpEthAddress input.message encodedPolicy)]
        match env.executeJsResult with
        | .error e => (.error e, st2, ev3)
        | .ok r => (.ok { success := true, result := some r }, st2, ev3)

/-- The body of the lit-uniswap-swap handler. -/
def uniswapSwapRun (cfg : LitActionProviderConfig) (input : LitUniswapSwapInput)
    (st : Option LitClient) (env : ExternalEnv) :
    Except String Envelope × Option LitClient × List LitEvent :=
  match getLitClient cfg st env with
  | (.error e, st1, ev1) => (.error e, st1, ev1)
  | (.ok _, st1, ev1) =>
    match getSessionSigs cfg st1 env with
    | (.error e, st2, ev2) => (.error e, st2, ev1 ++ ev2)
    | (.ok _, st2, ev2) =>
      let network := cfg.litNetwork.getD .datilDev
      let ipfsCid := (IPFS_CIDS network).uniswapSwap
      let policy := buildUniswapSwapPolicy input
      match UniswapSwapPolicy.encode env.checksum policy with
      | .error e => (.error e, st2, ev1 ++ ev2)
      | .ok encodedPolicy =>
        let ev3 := ev1 ++ ev2 ++
          [.executeJs (.uniswap ipfsCid input.pkpEthAddress input.tokenIn
            input.tokenOut input.amountIn input.chainId input.rpcUrl encodedPolicy)]
        match env.executeJsResult with
        | .error e => (.error e, st2, ev3)
        | .ok r => (.ok { success := true, result := some r }, st2, ev3)

/-! ## The six handlers: the same control flow, every throw caught in place
and formatted by the catch block of the respective action -/

def helloHandler (cfg : LitActionProviderConfig) (input : HelloLitInput)
    (st : Option LitClient) (env : ExternalEnv) :
    Envelope × Option LitClient × List LitEvent :=
  match getLitClient cfg st env with
  | (.error e, st1, ev1) =>
    ({ success := false, error := some (helloErrorMessage e) }, st1, ev1)
  | (.ok _, st1, ev1) =>
    match getSessionSigs cfg st1 env with
    | (.error e, st2, ev2) =>
      ({ success := false, error := some (helloErrorMessage e) }, st2, ev1 ++ ev2)
    | (.ok _, st2, ev2) =>
      let ev3 := ev1 ++ ev2 ++ [.executeJs (.hello (helloJsParams input))]
      match env.executeJsResult with
      | .error e =>
        ({ success := false, error := some (helloErrorMessage e) }, st2, ev3)
      | .ok r => ({ success := true, result := some r }, st2, ev3)

def encryptEnvHandler (cfg : LitActionProviderConfig) (input : EncryptEnvInput)
    (st : Option LitClient) (env : ExternalEnv) :
    Envelope × Option LitClient × List LitEvent :=
  let path := encryptEnvReadPath input
  match env.readFileResult path with
  | .error e =>
    ({ success := false, error := some (encryptErrorMessage e) }, st, [.fsRead path])
  | .ok content =>
    if content == "" then
      ({ success := false,
         error := some ("File " ++ path ++ " is empty or missing") },
       st, [.fsRead path])
    else
      match getLitClient cfg st env with
      | (.error e, st1, ev1) =>
        ({ success := false, error := some (encryptErrorMessage e) },
         st1, .fsRead path :: ev1)
      | (.ok _, st1, ev1) =>
        let authorizedWallet := jsOrString input.walletAddress env.walletAddress
        match env.encryptResult with
        | .error e =>
          ({ success := false, error := some (encryptErrorMessage e) },
           st1, .fsRead path :: (ev1 ++ [.encryptCall]))
        | .ok _ =>
          let out := encryptEnvWritePath input
          match env.writeResult out with
          | .error e =>
            ({ success := false, error := some (encryptErrorMessage e) },
             st1, .fsRead path :: (ev1 ++ [.encryptCall, .fsWrite out]))
          | .ok _ =>
            ({ success := true,
               result := some ("Encrypted " ++ path ++ " to " ++ out
                 ++ ". Access control set for " ++ authorizedWallet) },
             st1, .fsRead path :: (ev1 ++ [.encryptCall, .fsWrite out]))

def decryptEnvHandler (cfg : LitActionProviderConfig) (input : DecryptEnvInput)
    (st : Option LitClient) (env : ExternalEnv) :
    Envelope × Option LitClient × List LitEvent :=
  let path := decryptEnvReadPath input
  match env.readFileResult path with
  | .error e =>
    ({ success := false, error := some (decryptErrorMessage e) }, st, [.fsRead path])
  | .ok content =>
    match env.jsonParse content with
    | .error e =>
      ({ success := false, error := some (decryptErrorMessage e) }, st, [.fsRead path])
    | .ok _ =>
      match getLitClient cfg st env with
      | (.error e, st1, ev1) =>
        ({ success := false, error := some (decryptErrorMessage e) },
         st1, .fsRead path :: ev1)
      | (.ok _, st1, ev1) =>
        match getSessionSigs cfg st1 env with
        | (.error e, st2, ev2) =>
          ({ success := false, error := some (decryptErrorMessage e) },
           st2, .fsRead path :: (ev1 ++ ev2))
        | (.ok _, st2, ev2) =>
          match env.decryptResult with
          | .error e =>
            ({ success := false, error := some (decryptErrorMessage e) },
             st2, .fsRead path :: (ev1 ++ ev2 ++ [.decryptCall]))
          | .ok _ =>
            let out := decryptEnvWritePath input
            match env.writeResult out with
            | .error e =>
              ({ success := false, error := some (decryptErrorMessage e) },
               st2, .fsRead path :: (ev1 ++ ev2 ++ [.decryptCall, .fsWrite out]))
            | .ok _ =>
              ({ success := true,
                 result := some ("Decrypted " ++ path ++ " to " ++ out) },
               st2, .fsRead path :: (ev1 ++ ev2 ++ [.decryptCall, .fsWrite out]))

def erc20TransferHandler (cfg : LitActionProviderConfig) (input : LitErc20TransferInput)
    (st : Option LitClient) (env : ExternalEnv) :
    Envelope × Option LitClient × List LitEvent :=
  match getLitClient cfg st env with
  | (.error e, st1, ev1) =>
    ({ success := false, error := some (erc20ErrorMessage e) }, st1, ev1)
  | (.ok _, st1, ev1) =>
    match getSessionSigs cfg st1 env with
    | (.error e, st2, ev2) =>
      ({ success := false, error := some (erc20ErrorMessage e) }, st2, ev1 ++ ev2)
    | (.ok _, st2, ev2) =>
      let network := cfg.litNetwork.getD .datilDev
      let ipfsCid := (IPFS_CIDS network).erc20Transfer
      let policy := buildErc20TransferPolicy input
      match ERC20TransferPolicy.encode env.checksum policy with
      | .error e =>
        ({ success := false, error := some (erc20ErrorMessage e) }, st2, ev1 ++ ev2)
      | .ok encodedPolicy =>
        let ev3 := ev1 ++ ev2 ++
          [.executeJs (.erc20 ipfsCid input.pkpEthAddress input.tokenAddress
            input.recipientAddress input.amount input.chainId input.rpcUrl encodedPolicy)]
        match env.executeJsResult with
        | .error e =>
          ({ success := false, error := some (erc20ErrorMessage e) }, st2, ev3)
        | .ok r => ({ success := true, result := some r }, st2, ev3)

def ecdsaSignHandler (cfg : LitActionProviderConfig) (input : LitEcdsaSignInput)
    (st : Option LitClient) (env : ExternalEnv) :
    Envelope × Option LitClient × List LitEvent :=
  match getLitClient cfg st env with
  | (.error e, st1, ev1) =>
    ({ success := false, error := some (ecdsaErrorMessage e) }, st1, ev1)
  | (.ok _, st1, ev1) =>
    match getSessionSigs cfg st1 env with
    | (.error e, st2, ev2) =>
      ({ success := false, error := some (ecdsaErrorMessage e) }, st2, ev1 ++ ev2)
    | (.ok _, st2, ev2) =>
      let network := cfg.litNetwork.getD .datilDev
      let ipfsCid := (IPFS_CIDS network).ecdsaSign
      let policy := buildSignEcdsaPolicy input
      match SignEcdsaPolicy.encode policy with
      | .error e =>
        ({ success := false, error := some (ecdsaErrorMessage e) }, st2, ev1 ++ ev2)
      | .ok encodedPolicy =>
        let ev3 := ev1 ++ ev2 ++
          [.executeJs (.ecdsa ipfsCid input.pkpEthAddress input.message encodedPolicy)]
        match env.executeJsResult with
        | .error e =>
          ({ success := false, error := some (ecdsaErrorMessage e) }, st2, ev3)
        | .ok r => ({ success := true, result := some r }, st2, ev3)

def uniswapSwapHandler (cfg : LitActionProviderConfig) (input : LitUniswapSwapInput)
    (st : Option LitClient) (env : ExternalEnv) :
    Envelope × Option LitClient × List LitEvent :=
  match getLitClient cfg st env with
  | (.error e, st1, ev1) =>
    ({ success := false, error := some (uniswapErrorMessage e) }, st1, ev1)
  | (.ok _, st1, ev1) =>
    match getSessionSigs cfg st1 env with
    | (.error e, st2, ev2) =>
      ({ success := false, error := some (uniswapErrorMessage e) }, st2, ev1 ++ ev2)
    | (.ok _, st2, ev2) =>
      let network := cfg.litNetwork.getD .datilDev
      let ipfsCid := (IPFS_CIDS network).uniswapSwap
      let policy := buildUniswapSwapPolicy input
      match UniswapSwapPolicy.encode env.checksum policy with
      | .error e =>
        ({ success := false, error := some (uniswapErrorMessage e) }, st2, ev1 ++ ev2)
      | .ok encodedPolicy =>
        let ev3 := ev1 ++ ev2 ++
          [.executeJs (.uniswap ipfsCid input.pkpEthAddress input.tokenIn
            input.tokenOut input.amountIn input.chainId input.rpcUrl encodedPolicy)]
        match env.executeJsResult with
        | .error e =>
          ({ success := false, error := some (uniswapErrorMessage e) }, st2, ev3)
        | .ok r => ({ success := true, result := some r }, st2, ev3)

/-! ## The raw zod parse of `LitErc20TransferSchema` (for strictness) -/

/-- A JavaScript value as zod sees it. -/
inductive JVal
  | str (s : String)
  | num (n : Int)
  | boolean (b : Bool)
  | null
deriving DecidableEq, Repr

/-- The value at a key, a non-string counting as absent for a
`z.string()` check. -/
def getStrField (obj : List (String × JVal)) (k : String) : Option String :=
  match obj.lookup k with
  | some (.str s) => some s
  | _ => none

/-- One required `z.string().regex(...)`-style field check. -/
def zodStringCheck (obj : List (String × JVal)) (k : String)
    (check : String → Bool) : Bool :=
  match getStrField obj k with
  | some s => check s
  | none => false

def litErc20TransferKeys : List String :=
  ["pkpEthAddress", "tokenAddress", "recipientAddress", "amount", "chainId", "rpcUrl"]

/-- `LitErc20TransferSchema.parse` on a raw object: the three address
regexes, the amount regex, the chain-id regex, the url check (left as the
oracle `urlOk`, zod defers to the runtime URL parser), and `.strict()`
rejecting every unknown key. -/
def litErc20TransferSchemaParse (urlOk : String → Bool)
    (obj : List (String × JVal)) : Bool :=
  zodStringCheck obj "pkpEthAddress" addressRegexOk &&
  zodStringCheck obj "tokenAddress" addressRegexOk &&
  zodStringCheck obj "recipientAddress" addressRegexOk &&
  zodStringCheck obj "amount" decimalRegexOk &&
  zodStringCheck obj "chainId" digitsNonempty &&
  zodStringCheck obj "rpcUrl" urlOk &&
  obj.all fun kv => litErc20TransferKeys.contains kv.1

/-- C6, stated in the claim's own words: each named field is a string
matching its format, and the object holds no other keys. -/
def litErc20TransferClaimAccepts (urlOk : String → Bool)
    (obj : List (String × JVal)) : Prop :=
  (∃ s, getStrField obj "pkpEthAddress" = some s ∧ addressRegexOk s = true) ∧
  (∃ s, getStrField obj "tokenAddress" = some s ∧ addressRegexOk s = true) ∧
  (∃ s, getStrField obj "recipientAddress" = some s ∧ addressRegexOk s = true) ∧
  (∃ s, getStrField obj "amount" = some s ∧ decimalRegexOk s = true) ∧
  (∃ s, getStrField obj "chainId" = some s ∧ digitsNonempty s = true) ∧
  (∃ s, getStrField obj "rpcUrl" = some s ∧ urlOk s = true) ∧
  ∀ kv ∈ obj, kv.1 ∈ litErc20TransferKeys

/-! ## The scaling the spec describes, and concrete fixtures -/

/-- Number of fraction digits of a decimal amount string. -/
def fracDigitsLength (s : String) : Nat :=
  ((dotSplit s.toList).2.getD []).length

/-- C5, in the claim's words: the amount string scaled by ten to the
`decimals`, i.e. whole times `10 ^ d` plus fraction times
`10 ^ (d - fraction length)`, defined when the fraction has at most `d`
digits. -/
def scaledDecimalSpec (maxAmount : String) (d : Nat) : Option Nat :=
  if (dotSplit maxAmount.toList).1.all Char.isDigit
      && ((dotSplit maxAmount.toList).2.getD []).all Char.isDigit
      && ((dotSplit maxAmount.toList).2.getD []).length ≤ d then
    some (natOfDigitList (dotSplit maxAmount.toList).1 * 10 ^ d
      + natOfDigitList ((dotSplit maxAmount.toList).2.getD [])
        * 10 ^ (d - ((dotSplit maxAmount.toList).2.getD []).length))
  else none

/-- An all-lower-case (hence checksum-free) token address. -/
def sampleTokenAddress : String :=
  "0xaaaaaaaaaaaaaaaaaaaaaaaaaaaaaaaaaaaaaaaa"

/-- An all-lower-case recipient address. -/
def sampleRecipientAddress : String :=
  "0xbbbbbbbbbbbbbbbbbbbbbbbbbbbbbbbbbbbbbbbb"

/-- An all-lower-case PKP address. -/
def samplePkpAddress : String :=
  "0xcccccccccccccccccccccccccccccccccccccccc"

/-- A concrete outcome record: every third-party call succeeds, the env
file read yields the empty string. -/
def sampleEnv : ExternalEnv :=
  { connectResult := .ok ()
    sessionSigsResult := .ok ()
    executeJsResult := .ok "response"
    encryptResult := .ok ("ciphertext", "hash")
    decryptResult := .ok "SECRET=value"
    readFileResult := fun _ => .ok ""
    writeResult := fun _ => .ok ()
    jsonParse := fun _ => .ok { ciphertext := "c", dataToEncryptHash := "h" }
    walletAddress := "0x1234567890123456789012345678901234567890"
    checksum := fun _ => false }

/-- A schema-valid lit-uniswap-swap input whose `amountIn` is the decimal
string the claim itself names. -/
def c2FailingUniswapInput : LitUniswapSwapInput :=
  { pkpEthAddress := samplePkpAddress
    tokenIn := sampleTokenAddress
    tokenOut := sampleRecipientAddress
    amountIn := "1.5"
    chainId := "1"
    rpcUrl := "https://example.com/rpc" }

/-- The claim's own ERC20 example: amount `"1.5"` at 18 decimals. -/
def c5ExamplePolicy : ERC20TransferPolicyType :=
  { type := "ERC20Transfer"
    version := ERC20TransferPolicy.version
    erc20Decimals := "18"
    maxAmount := "1.5"
    allowedTokens := [sampleTokenAddress]
    allowedRecipients := [sampleRecipientAddress] }

/-- A concrete raw request object holding exactly the six declared keys. -/
def c6SampleObject : List (String × JVal) :=
  [("pkpEthAddress", .str samplePkpAddress),
   ("tokenAddress", .str sampleTokenAddress),
   ("recipientAddress", .str sampleRecipientAddress),
   ("amount", .str "1.5"),
   ("chainId", .str "1"),
   ("rpcUrl", .str "https://example.com/rpc")]

/-- The encoded tuple expected for `c5ExamplePolicy`:
`1.5` at 18 decimals is `1500000000000000000`. -/
def c5ExampleEncoded : EncodedERC20 :=
  { erc20Decimals := 18
    maxAmount := 1500000000000000000
    allowedTokens := [sampleTokenAddress]
    allowedRecipients := [sampleRecipientAddress] }

/-! ## Helper lemmas -/

theorem zodStringCheck_eq_true (obj : List (String × JVal)) (k : String)
    (check : String → Bool) :
    zodStringCheck obj k check = true ↔
      ∃ s, getStrField obj k = some s ∧ check s = true := by
  unfold zodStringCheck
  cases h : getStrField obj k with
  | none => simp
  | some s => simp

theorem encodeAddresses_ok (checksum : String → Bool) :
    ∀ l r, encodeAddresses checksum l = .ok r → r = l := by
  intro l
  induction l with
  | nil => intro r h; simpa [encodeAddresses] using h.symm
  | cons a rest ih =>
    intro r h
    unfold encodeAddresses at h
    by_cases ha : getAddressOk checksum a = true
    · rw [if_pos ha] at h
      cases hrest : encodeAddresses checksum rest with
      | ok r0 => rw [hrest] at h; cases h; rw [ih r0 hrest]
      | error e => rw [hrest] at h; cases h
    · rw [if_neg ha] at h; cases h

theorem natOfDigitList_foldl (l : List Char) (n : Nat) :
    l.foldl (fun a c => a * 10 + (c.toNat - 48)) n =
      n * 10 ^ l.length + natOfDigitList l := by
  induction l generalizing n with
  | nil => simp [natOfDigitList]
  | cons c cs ih =>
    show cs.foldl _ (n * 10 + (c.toNat - 48)) = _
    rw [ih (n * 10 + (c.toNat - 48))]
    have h2 : natOfDigitList (c :: cs) = (c.toNat - 48) * 10 ^ cs.length + natOfDigitList cs := by
      show cs.foldl _ (0 * 10 + (c.toNat - 48)) = _
      rw [ih (0 * 10 + (c.toNat - 48))]
      ring
    rw [h2, List.length_cons]
    ring

theorem natOfDigitList_append (a b : List Char) :
    natOfDigitList (a ++ b) = natOfDigitList a * 10 ^ b.length + natOfDigitList b := by
  show (a ++ b).foldl _ 0 = _
  rw [List.foldl_append]
  exact natOfDigitList_foldl b _

theorem natOfDigitList_replicate_zero (z : Nat) :
    natOfDigitList (List.replicate z '0') = 0 := by
  induction z with
  | zero => rfl
  | succ k ih =>
    rw [List.replicate_succ]
    show (List.replicate k '0').foldl _ (0 * 10 + ('0'.toNat - 48)) = 0
    rw [natOfDigitList_foldl]
    have hz : 0 * 10 + ('0'.toNat - 48) = 0 := by decide
    rw [hz, ih]
    simp

theorem decimalRegexOk_no_sign (s : String) (h : decimalRegexOk s = true) :
    signSplit s.toList = (false, s.toList) := by
  cases hs : s.toList with
  | nil => rfl
  | cons c rest =>
    unfold signSplit
    by_cases hc : c = '-'
    · subst hc
      exfalso
      unfold decimalRegexOk at h
      rw [hs] at h
      simp only [dotSplit] at h
      have hne : ('-' : Char) ≠ '.' := by decide
      rw [if_neg hne] at h
      cases hd : (dotSplit rest).2 with
      | none =>
        rw [hd] at h
        simp at h
      | some f =>
        rw [hd] at h
        simp at h
    · cases c
      simp_all [signSplit]

theorem jsNumberOfDigits_of_digits (s : String) (h : digitsNonempty s = true) :
    jsNumberOfDigits s = some (natOfDigitList s.toList) := by
  unfold digitsNonempty at h
  rw [Bool.and_eq_true, Bool.not_eq_true'] at h
  unfold jsNumberOfDigits
  rw [h.1, h.2]
  simp

theorem uintCoderCheck_ok (bits : Nat) (v x : Int)
    (h : uintCoderCheck bits v = .ok x) : x = v := by
  unfold uintCoderCheck at h
  split at h
  · exact Except.noConfusion h
  · injection h with h
    exact h.symm

theorem fixedNumberParts_of_decimal (s : String) (hs : decimalRegexOk s = true) :
    fixedNumberParts s = fixedNumberPartsAux false s.toList := by
  unfold fixedNumberParts
  rw [decimalRegexOk_no_sign s hs]

theorem parseUnits_scaled (s : String) (d : Nat) (m : Int)
    (hs : decimalRegexOk s = true)
    (hf : fracDigitsLength s ≤ d)
    (hp : parseUnits s d = .ok m) :
    0 ≤ m ∧ scaledDecimalSpec s d = some m.toNat := by
  unfold parseUnits at hp
  by_cases h80 : 80 < d
  · rw [if_pos h80] at hp
    exact Except.noConfusion hp
  rw [if_neg h80, fixedNumberParts_of_decimal s hs] at hp
  unfold fixedNumberPartsAux at hp
  unfold decimalRegexOk at hs
  unfold fracDigitsLength at hf
  unfold scaledDecimalSpec
  rcases hd : dotSplit s.toList with ⟨w, fq⟩
  rw [hd] at hs hf hp
  cases fq with
  | none =>
    rw [Bool.and_eq_true, Bool.not_eq_true'] at hs
    have hw : w ≠ [] := by
      intro hnil
      rw [hnil] at hs
      simp at hs
    have hw0 : w.length ≠ 0 := fun h0 => hw (List.length_eq_zero.mp h0)
    simp only [Option.getD_none, List.all_nil, Bool.and_true, hs.2, if_true] at hp
    simp only [List.length_nil, Nat.add_zero, List.all_nil, Bool.and_true] at hp
    rw [if_neg (by simpa using hw0)] at hp
    rw [if_neg (by omega)] at hp
    split at hp
    · exact Except.noConfusion hp
    · injection hp with hp
      subst hp
      refine ⟨by simp [parseUnitsValue], ?_⟩
      rw [if_pos (by simp [hs.2])]
      congr 1
      simp only [parseUnitsValue, if_false, Bool.false_eq_true, Int.toNat_ofNat]
      rw [List.nil_append, natOfDigitList_append, natOfDigitList_replicate_zero,
        List.length_replicate]
      simp [natOfDigitList]
  | some f =>
    rw [Bool.and_eq_true, Bool.and_eq_true, Bool.not_eq_true'] at hs
    have hfne : f ≠ [] := by
      intro hnil
      rw [hnil] at hs
      simp at hs
    have hf0 : f.length ≠ 0 := fun h0 => hfne (List.length_eq_zero.mp h0)
    have hlen : (w.length + f.length == 0) = false := by
      simp only [beq_eq_false_iff_ne, ne_eq]
      omega
    simp only [Option.getD_some] at hp hf ⊢
    simp only [hs.1, hs.2.2, Bool.and_self, Bool.and_true, Bool.true_and, if_true,
      ite_true, hlen, Bool.false_eq_true, if_false, ite_false] at hp
    rw [if_neg (by omega : ¬ d < f.length)] at hp
    split at hp
    · exact Except.noConfusion hp
    · injection hp with hp
      subst hp
      refine ⟨by simp [parseUnitsValue], ?_⟩
      rw [if_pos (by simp [hs.1, hs.2.2, hf])]
      congr 1
      simp only [parseUnitsValue, if_false, Bool.false_eq_true, Int.toNat_ofNat]
      rw [natOfDigitList_append, natOfDigitList_append,
        natOfDigitList_replicate_zero, List.length_append, List.length_replicate]
      have hsum : f.length + (d - f.length) = d := by omega
      rw [hsum]
      ring

theorem helloHandler_eq (cfg : LitActionProviderConfig) (input : HelloLitInput)
    (st : Option LitClient) (env : ExternalEnv) :
    helloHandler cfg input st env =
      tryCatchEnvelope helloErrorMessage (helloRun cfg input st env) := by
  unfold helloHandler helloRun
  repeat (first | rfl | split | dsimp only)

theorem encryptEnvHandler_eq (cfg : LitActionProviderConfig) (input : EncryptEnvInput)
    (st : Option LitClient) (env : ExternalEnv) :
    encryptEnvHandler cfg input st env =
      tryCatchEnvelope encryptErrorMessage (encryptEnvRun cfg input st env) := by
  unfold encryptEnvHandler encryptEnvRun
  repeat (first | rfl | split | dsimp only)

theorem decryptEnvHandler_eq (cfg : LitActionProviderConfig) (input : DecryptEnvInput)
    (st : Option LitClient) (env : ExternalEnv) :
    decryptEnvHandler cfg input st env =
      tryCatchEnvelope decryptErrorMessage (decryptEnvRun cfg input st env) := by
  unfold decryptEnvHandler decryptEnvRun
  repeat (first | rfl | split | dsimp only)

theorem erc20TransferHandler_eq (cfg : LitActionProviderConfig)
    (input : LitErc20TransferInput) (st : Option LitClient) (env : ExternalEnv) :
    erc20TransferHandler cfg input st env =
      tryCatchEnvelope erc20ErrorMessage (erc20TransferRun cfg input st env) := by
  unfold erc20TransferHandler erc20TransferRun
  repeat (first | rfl | split | dsimp only)

theorem ecdsaSignHandler_eq (cfg : LitActionProviderConfig)
    (input : LitEcdsaSignInput) (st : Option LitClient) (env : ExternalEnv) :
    ecdsaSignHandler cfg input st env =
      tryCatchEnvelope ecdsaErrorMessage (ecdsaSignRun cfg input st env) := by
  unfold ecdsaSignHandler ecdsaSignRun
  repeat (first | rfl | split | dsimp only)

theorem uniswapSwapHandler_eq (cfg : LitActionProviderConfig)
    (input : LitUniswapSwapInput) (st : Option LitClient) (env : ExternalEnv) :
    uniswapSwapHandler cfg input st env =
      tryCatchEnvelope uniswapErrorMessage (uniswapSwapRun cfg input st env) := by
  unfold uniswapSwapHandler uniswapSwapRun
  repeat (first | rfl | split | dsimp only)

theorem helloEnvelopeUniform (cfg : LitActionProviderConfig) (input : HelloLitInput)
    (st : Option LitClient) (env : ExternalEnv) :
    (helloHandler cfg input st env).1.result.isSome
        = (helloHandler cfg input st env).1.success ∧
    (helloHandler cfg input st env).1.error.isSome
        = !(helloHandler cfg input st env).1.success := by
  unfold helloHandler
  repeat (first | exact ⟨rfl, rfl⟩ | split | dsimp only)

theorem encryptEnvEnvelopeUniform (cfg : LitActionProviderConfig) (input : EncryptEnvInput)
    (st : Option LitClient) (env : ExternalEnv) :
    (encryptEnvHandler cfg input st env).1.result.isSome
        = (encryptEnvHandler cfg input st env).1.success ∧
    (encryptEnvHandler cfg input st env).1.error.isSome
        = !(encryptEnvHandler cfg input st env).1.success := by
  unfold encryptEnvHandler
  repeat (first | exact ⟨rfl, rfl⟩ | split | dsimp only)

theorem decryptEnvEnvelopeUniform (cfg : LitActionProviderConfig) (input : DecryptEnvInput)
    (st : Option LitClient) (env : ExternalEnv) :
    (decryptEnvHandler cfg input st env).1.result.isSome
        = (decryptEnvHandler cfg input st env).1.success ∧
    (decryptEnvHandler cfg input st env).1.error.isSome
        = !(decryptEnvHandler cfg input st env).1.success := by
  unfold decryptEnvHandler
  repeat (first | exact ⟨rfl, rfl⟩ | split | dsimp only)

theorem erc20TransferEnvelopeUniform (cfg : LitActionProviderConfig)
    (input : LitErc20TransferInput) (st : Option LitClient) (env : ExternalEnv) :
    (erc20TransferHandler cfg input st env).1.result.isSome
        = (erc20TransferHandler cfg input st env).1.success ∧
    (erc20TransferHandler cfg input st env).1.error.isSome
        = !(erc20TransferHandler cfg input st env).1.success := by
  unfold erc20TransferHandler
  repeat (first | exact ⟨rfl, rfl⟩ | split | dsimp only)

theorem ecdsaSignEnvelopeUniform (cfg : LitActionProviderConfig)
    (input : LitEcdsaSignInput) (st : Option LitClient) (env : ExternalEnv) :
    (ecdsaSignHandler cfg input st env).1.result.isSome
        = (ecdsaSignHandler cfg input st env).1.success ∧
    (ecdsaSignHandler cfg input st env).1.error.isSome
        = !(ecdsaSignHandler cfg input st env).1.success := by
  unfold ecdsaSignHandler
  repeat (first | exact ⟨rfl, rfl⟩ | split | dsimp only)

theorem uniswapSwapEnvelopeUniform (cfg : LitActionProviderConfig)
    (input : LitUniswapSwapInput) (st : Option LitClient) (env : ExternalEnv) :
    (uniswapSwapHandler cfg input st env).1.result.isSome
        = (uniswapSwapHandler cfg input st env).1.success ∧
    (uniswapSwapHandler cfg input st env).1.error.isSome
        = !(uniswapSwapHandler cfg input st env).1.success := by
  unfold uniswapSwapHandler
  repeat (first | exact ⟨rfl, rfl⟩ | split | dsimp only)

/-! ## Claim theorems -/

/-- C1: every action handler of the lit action provider is a total function
into the result envelope, equal to the try/catch wrapping of its uncaught
body: whatever error any step of the body throws (file read, client
connect, session-signature negotiation, encryption or decryption, policy
encoding, `executeJs`), the handler returns the catch block's envelope —
`success := false` with the formatted error string — and never propagates
the exception; the final conjunct shows the catch block's envelope shape. -/
theorem c1_handlers_catch_all_errors :
    (∀ cfg input st env, helloHandler cfg input st env =
        tryCatchEnvelope helloErrorMessage (helloRun cfg input st env)) ∧
    (∀ cfg input st env, encryptEnvHandler cfg input st env =
        tryCatchEnvelope encryptErrorMessage (encryptEnvRun cfg input st env)) ∧
    (∀ cfg input st env, decryptEnvHandler cfg input st env =
        tryCatchEnvelope decryptErrorMessage (decryptEnvRun cfg input st env)) ∧
    (∀ cfg input st env, erc20TransferHandler cfg input st env =
        tryCatchEnvelope erc20ErrorMessage (erc20TransferRun cfg input st env)) ∧
    (∀ cfg input st env, ecdsaSignHandler cfg input st env =
        tryCatchEnvelope ecdsaErrorMessage (ecdsaSignRun cfg input st env)) ∧
    (∀ cfg input st env, uniswapSwapHandler cfg input st env =
        tryCatchEnvelope uniswapErrorMessage (uniswapSwapRun cfg input st env)) ∧
    (∀ (fmt : String → String) e st ev, tryCatchEnvelope fmt (.error e, st, ev) =
        ({ success := false, result := none, error := some (fmt e) }, st, ev)) :=
  ⟨helloHandler_eq, encryptEnvHandler_eq, decryptEnvHandler_eq, erc20TransferHandler_eq,
   ecdsaSignHandler_eq, uniswapSwapHandler_eq, fun _ _ _ _ => rfl⟩

/-- C3: every handler of the lit action provider, for every input, client
state and outcome of the third-party calls, returns a uniform envelope:
the string result is present exactly when `success` is true and the string
error exactly when `success` is false, never both. -/
theorem c3_uniform_result_envelope :
    (∀ cfg input st env,
      (helloHandler cfg input st env).1.result.isSome
          = (helloHandler cfg input st env).1.success ∧
      (helloHandler cfg input st env).1.error.isSome
          = !(helloHandler cfg input st env).1.success) ∧
    (∀ cfg input st env,
      (encryptEnvHandler cfg input st env).1.result.isSome
          = (encryptEnvHandler cfg input st env).1.success ∧
      (encryptEnvHandler cfg input st env).1.error.isSome
          = !(encryptEnvHandler cfg input st env).1.success) ∧
    (∀ cfg input st env,
      (decryptEnvHandler cfg input st env).1.result.isSome
          = (decryptEnvHandler cfg input st env).1.success ∧
      (decryptEnvHandler cfg input st env).1.error.isSome
          = !(decryptEnvHandler cfg input st env).1.success) ∧
    (∀ cfg input st env,
      (erc20TransferHandler cfg input st env).1.result.isSome
          = (erc20TransferHandler cfg input st env).1.success ∧
      (erc20TransferHandler cfg input st env).1.error.isSome
          = !(erc20TransferHandler cfg input st env).1.success) ∧
    (∀ cfg input st env,
      (ecdsaSignHandler cfg input st env).1.result.isSome
          = (ecdsaSignHandler cfg input st env).1.success ∧
      (ecdsaSignHandler cfg input st env).1.error.isSome
          = !(ecdsaSignHandler cfg input st env).1.success) ∧
    (∀ cfg input st env,
      (uniswapSwapHandler cfg input st env).1.result.isSome
          = (uniswapSwapHandler cfg input st env).1.success ∧
      (uniswapSwapHandler cfg input st env).1.error.isSome
          = !(uniswapSwapHandler cfg input st env).1.success) :=
  ⟨helloEnvelopeUniform, encryptEnvEnvelopeUniform, decryptEnvEnvelopeUniform,
   erc20TransferEnvelopeUniform, ecdsaSignEnvelopeUniform, uniswapSwapEnvelopeUniform⟩

/-- C4: the shared node client is created lazily exactly once.  A call with
the state unset constructs the client from that call's config and connects
it; every later call, whatever its config, returns the stored handle with
no construct or connect event and no state change, so later configs have
no effect. -/
theorem c4_lit_client_lazy_singleton :
    (∀ cfg env, env.connectResult = .ok () →
      getLitClient cfg none env =
        (.ok (mkLitClient cfg), some (mkLitClient cfg),
         [.constructClient (mkLitClient cfg).litNetwork (mkLitClient cfg).debug,
          .connectClient])) ∧
    (∀ cfg env c, getLitClient cfg (some c) env = (.ok c, some c, [])) := by
  constructor
  · intro cfg env h
    unfold getLitClient
    rw [h]
  · intro cfg env c
    rfl

/-- C4 witness: a concrete first call constructs and connects; a second
call with a different config returns the first handle untouched. -/
theorem c4_lit_client_lazy_singleton_witness :
    getLitClient {} none sampleEnv =
      (.ok (mkLitClient {}), some (mkLitClient {}),
       [.constructClient LitNetwork.datilDev false, .connectClient]) ∧
    getLitClient { litNetwork := some .datil, debug := some true }
        (some (mkLitClient {})) sampleEnv =
      (.ok (mkLitClient {}), some (mkLitClient {}), []) :=
  ⟨c4_lit_client_lazy_singleton.1 {} sampleEnv rfl,
   c4_lit_client_lazy_singleton.2 _ sampleEnv (mkLitClient {})⟩

/-- C5: for every policy whose `erc20Decimals` is a decimal-digit string of
value `d` and whose `maxAmount` is a schema-valid decimal string with at
most `d` fraction digits, whatever tuple `ERC20TransferPolicy.encode`
produces carries as its `uint256 maxAmount` exactly the amount scaled by
`10 ^ d` (ethers `parseUnits`), with the decimals value and both address
lists mapped unchanged. -/
theorem c5_erc20_encode_scales_max_amount (checksum : String → Bool)
    (p : ERC20TransferPolicyType) (r : EncodedERC20)
    (hd : digitsNonempty p.erc20Decimals = true)
    (hm : decimalRegexOk p.maxAmount = true)
    (hf : fracDigitsLength p.maxAmount ≤ natOfDigitList p.erc20Decimals.toList)
    (hr : ERC20TransferPolicy.encode checksum p = .ok r) :
    0 ≤ r.maxAmount ∧
    scaledDecimalSpec p.maxAmount (natOfDigitList p.erc20Decimals.toList)
      = some r.maxAmount.toNat ∧
    r.erc20Decimals = (natOfDigitList p.erc20Decimals.toList : Int) ∧
    r.allowedTokens = p.allowedTokens ∧
    r.allowedRecipients = p.allowedRecipients := by
  unfold ERC20TransferPolicy.encode at hr
  cases hb : erc20TransferPolicySchemaOk p with
  | false =>
    rw [hb] at hr
    exact Except.noConfusion hr
  | true =>
    rw [hb] at hr
    simp only [Bool.not_true, Bool.false_eq_true, if_false,
      jsNumberOfDigits_of_digits _ hd] at hr
    split at hr
    · exact Except.noConfusion hr
    rename_i m hpu
    split at hr
    · exact Except.noConfusion hr
    rename_i dEnc h8
    split at hr
    · exact Except.noConfusion hr
    rename_i mEnc h256
    split at hr
    · exact Except.noConfusion hr
    rename_i toks htoks
    split at hr
    · exact Except.noConfusion hr
    rename_i recips hrecips
    injection hr with hr
    subst hr
    obtain ⟨hm0, hscaled⟩ := parseUnits_scaled p.maxAmount _ m hm hf hpu
    have hdEnc := uintCoderCheck_ok 8 _ dEnc h8
    have hmEnc := uintCoderCheck_ok 256 m mEnc h256
    subst hdEnc
    subst hmEnc
    exact ⟨hm0, hscaled, rfl,
      encodeAddresses_ok checksum _ toks htoks,
      encodeAddresses_ok checksum _ recips hrecips⟩

set_option maxRecDepth 100000 in
/-- C5 witness: the claim's own example, amount `1.5` at 18 decimals,
encodes `1500000000000000000` with the other fields unchanged. -/
theorem c5_erc20_encode_scales_max_amount_witness :
    digitsNonempty c5ExamplePolicy.erc20Decimals = true ∧
    decimalRegexOk c5ExamplePolicy.maxAmount = true ∧
    fracDigitsLength c5ExamplePolicy.maxAmount
      ≤ natOfDigitList c5ExamplePolicy.erc20Decimals.toList ∧
    ERC20TransferPolicy.encode (fun _ => false) c5ExamplePolicy = .ok c5ExampleEncoded ∧
    scaledDecimalSpec c5ExamplePolicy.maxAmount
        (natOfDigitList c5ExamplePolicy.erc20Decimals.toList)
      = some c5ExampleEncoded.maxAmount.toNat := by
  have henc : ERC20TransferPolicy.encode (fun _ => false) c5ExamplePolicy
      = .ok c5ExampleEncoded := by rfl
  exact ⟨by decide, by decide, by decide, henc,
    (c5_erc20_encode_scales_max_amount (fun _ => false) c5ExamplePolicy c5ExampleEncoded
      (by decide) (by decide) (by decide) henc).2.1⟩

set_option maxRecDepth 100000 in
/-- C2 is false on the code, and the code is the slip: the schema-valid
amount string `1.5` (it matches the decimal regex) makes
`UniswapSwapPolicy.encode` throw, because the handler's policy feeds the
raw decimal string to the `uint256` coder and ethers `getBigInt` rejects
any non-integer string — whatever the checksum oracle says, since the
failure precedes the address coding. -/
theorem c2_uniswap_encode_rejects_decimal_amount :
    decimalRegexOk c2FailingUniswapInput.amountIn = true ∧
    ∀ checksum : String → Bool,
      UniswapSwapPolicy.encode checksum (buildUniswapSwapPolicy c2FailingUniswapInput)
        = .error "invalid BigNumberish string" := by
  refine ⟨by decide, fun checksum => ?_⟩
  rfl

/-- C6: `LitErc20TransferSchema.parse` accepts an object exactly when the
three addresses match the address regex, the amount matches the decimal
regex, the chain id matches the digit regex, the RPC URL passes the URL
validator, and the object carries no key beyond the six declared ones
(`.strict()`). -/
theorem c6_transfer_schema_iff (urlOk : String → Bool)
    (obj : List (String × JVal)) :
    litErc20TransferSchemaParse urlOk obj = true ↔
      litErc20TransferClaimAccepts urlOk obj := by
  unfold litErc20TransferSchemaParse litErc20TransferClaimAccepts
  simp only [Bool.and_eq_true, zodStringCheck_eq_true, List.all_eq_true,
    List.contains, List.elem_iff, decide_eq_true_eq]
  tauto

/-- C7 counterexample: an explicitly supplied `magicNumber` of `0` is not
used — the falsy `||` default replaces it with `42` — so the claim's
"explicitly supplied values are used instead of the defaults" fails. -/
theorem c7_counterexample_magic_zero :
    helloJsParams { magicNumber := some 0 } = 42 ∧ (42 : Int) ≠ 0 := by
  exact ⟨rfl, by decide⟩

/-- C7 as amended: an empty config yields litNetwork datil-dev and debug
false; lit-encrypt-env reads `.env` and writes `.env.encrypted` when the
paths are absent; lit-hello sends 42 when no magic number is given; and
explicitly supplied truthy values are used — while falsy explicit values
(`magicNumber` 0, empty-string paths) fall back to the defaults because
the defaults are applied with a `||` falsy check. -/
theorem c7_defaults_filled :
    litActionProviderFinalConfig {} =
      { litNetwork := some .datilDev, debug := some false } ∧
    (∀ i : EncryptEnvInput, i.envFilePath = none → encryptEnvReadPath i = ".env") ∧
    (∀ i : EncryptEnvInput, i.outputPath = none →
      encryptEnvWritePath i = ".env.encrypted") ∧
    (∀ i : HelloLitInput, i.magicNumber = none → helloJsParams i = 42) ∧
    (∀ (n : LitNetwork) (d : Bool),
      litActionProviderFinalConfig { litNetwork := some n, debug := some d } =
        { litNetwork := some n, debug := some d }) ∧
    (∀ (i : EncryptEnvInput) (p : String), i.envFilePath = some p → p ≠ "" →
      encryptEnvReadPath i = p) ∧
    (∀ (i : EncryptEnvInput) (p : String), i.outputPath = some p → p ≠ "" →
      encryptEnvWritePath i = p) ∧
    (∀ (i : HelloLitInput) (m : Int), i.magicNumber = some m → m ≠ 0 →
      helloJsParams i = m) := by
  refine ⟨rfl, ?_, ?_, ?_, fun n d => rfl, ?_, ?_, ?_⟩
  · intro i hi
    simp [encryptEnvReadPath, jsOrString, hi]
  · intro i hi
    simp [encryptEnvWritePath, jsOrString, hi]
  · intro i hi
    simp [helloJsParams, jsOrInt, hi]
  · intro i p hi hp
    simp [encryptEnvReadPath, jsOrString, hi, hp]
  · intro i p hi hp
    simp [encryptEnvWritePath, jsOrString, hi, hp]
  · intro i m hi hm
    simp [helloJsParams, jsOrInt, hi, hm]

/-- C7 witness: concrete defaults and concrete explicit truthy values. -/
theorem c7_defaults_filled_witness :
    encryptEnvReadPath {} = ".env" ∧
    encryptEnvWritePath {} = ".env.encrypted" ∧
    helloJsParams {} = 42 ∧
    encryptEnvReadPath { envFilePath := some "config/dev.env" } = "config/dev.env" ∧
    encryptEnvWritePath { outputPath := some "out.enc" } = "out.enc" ∧
    helloJsParams { magicNumber := some 7 } = 7 :=
  ⟨c7_defaults_filled.2.1 {} rfl,
   c7_defaults_filled.2.2.1 {} rfl,
   c7_defaults_filled.2.2.2.1 {} rfl,
   c7_defaults_filled.2.2.2.2.2.1 _ _ rfl (by decide),
   c7_defaults_filled.2.2.2.2.2.2.1 _ _ rfl (by decide),
   c7_defaults_filled.2.2.2.2.2.2.2 _ _ rfl (by decide)⟩

/-- C8: when the file the lit-encrypt-env handler reads yields empty
content, the handler returns `success := false` with the exact
`is empty or missing` error, leaves the client state untouched, and its
event trace is the single file read — no client construct or connect, no
`encryptString` call, and no write to any path, so the file named by
`outputPath` is unchanged. -/
theorem c8_encrypt_env_empty_file (cfg : LitActionProviderConfig)
    (input : EncryptEnvInput) (st : Option LitClient) (env : ExternalEnv)
    (h : env.readFileResult (encryptEnvReadPath input) = .ok "") :
    encryptEnvHandler cfg input st env =
      ({ success := false, result := none,
         error := some ("File " ++ encryptEnvReadPath input ++ " is empty or missing") },
       st, [.fsRead (encryptEnvReadPath input)]) := by
  simp only [encryptEnvHandler]
  rw [h]
  rfl

/-- C8 witness: a concrete run whose env-file read yields the empty
string. -/
theorem c8_encrypt_env_empty_file_witness :
    encryptEnvHandler {} {} none sampleEnv =
      ({ success := false, result := none,
         error := some "File .env is empty or missing" },
       none, [.fsRead ".env"]) :=
  c8_encrypt_env_empty_file {} {} none sampleEnv rfl

/-- C9: the lit-erc20-transfer handler builds its policy exactly from the
request: the allowed-token list is the single requested token, the
allowed-recipient list the single requested recipient, the maximum amount
the requested amount, and the decimals the fixed string 18 — nothing
wider than the one requested transfer. -/
theorem c9_transfer_policy_exactly_request (input : LitErc20TransferInput) :
    buildErc20TransferPolicy input =
      { type := "ERC20Transfer", version := "1.0.0", erc20Decimals := "18",
        maxAmount := input.amount, allowedTokens := [input.tokenAddress],
        allowedRecipients := [input.recipientAddress] } := rfl

/-- C10: invoked with `magicNumber` 0, the lit-hello handler sends 42 —
the default is applied with the falsy `||` check — and no input can make
the sent jsParam equal 0. -/
theorem c10_hello_magic_zero_sends_42 :
    helloJsParams { magicNumber := some 0 } = 42 ∧
    ∀ input : HelloLitInput, helloJsParams input ≠ 0 := by
  refine ⟨rfl, ?_⟩
  intro input
  unfold helloJsParams jsOrInt
  cases input.magicNumber with
  | none => decide
  | some m =>
    dsimp only
    by_cases hm : (m == 0) = true
    · rw [if_pos hm]
      decide
    · rw [if_neg hm]
      simpa using hm

/-- C6 witness: a concrete object with the six valid fields is accepted
through the characterization, and the same object with one extra key is
rejected by the strict parse. -/
theorem c6_transfer_schema_iff_witness :
    litErc20TransferSchemaParse (fun _ => true) c6SampleObject = true ∧
    litErc20TransferSchemaParse (fun _ => true)
      (("extra", JVal.num 1) :: c6SampleObject) = false := by
  refine ⟨(c6_transfer_schema_iff (fun _ => true) c6SampleObject).mpr ?_, by rfl⟩
  exact ⟨⟨samplePkpAddress, rfl, by rfl⟩, ⟨sampleTokenAddress, rfl, by rfl⟩,
    ⟨sampleRecipientAddress, rfl, by rfl⟩, ⟨"1.5", rfl, by rfl⟩,
    ⟨"1", rfl, by rfl⟩, ⟨"https://example.com/rpc", rfl, rfl⟩, by decide⟩
